import Mathlib

/-!
# Verification of the `archive_dir` repository

Shallow embedding of the three Python scripts of the repository
(`src/python/archive_dir.py` — the final, most capable iteration of the
archiver, which the specification treats as the system of record;
`src/archive_dir.py` — the legacy iteration; `src/search_db.py` — the
search CLI) together with proofs about the claims of the specification.

Modelling conventions:
* paths, names and ISO timestamps are `String`s; byte counts are `Nat`;
* the SQLite `files` and `events` tables are lists of rows in insertion
  order (`fetchone` on an unordered query is the first matching row in
  natural/rowid order, i.e. `List.find?`);
* SQL `NULL` is `Option.none`; the three-valued comparison
  `content_type != 'directory'` selects a row only when `content_type`
  is non-NULL and differs from `"directory"`;
* external effects (the `7z` child process, thumbnail decoding, blob
  uploads, database-lock outcomes) are inputs of the model: each file
  item carries the outcome its external calls would have, and the
  pipeline records which external invocations were made;
* `uuid4` primary keys are not modelled (no claim mentions them);
* Python floats in `format_size` are modelled by exact rationals: every
  value the code manipulates is `b / 1024^k` with `b < 2^53`, which IEEE
  doubles represent exactly (division by 1024 only decrements the
  exponent), so the rational model is bit-faithful to the float code.
-/

namespace ArchiveDir

/-- `os.path.join(a, b)` for the forms used in the scripts
(`b` relative, `a` without trailing separator). -/
def pjoin (a b : String) : String := if a = "" then b else a ++ "/" ++ b

/-! ## `format_size` (src/python/archive_dir.py lines 29-34, identical in
src/archive_dir.py lines 21-26 and src/search_db.py lines 4-9)

```python
def format_size(size):
    for unit in ['B', 'KB', 'MB', 'GB', 'TB']:
        if size < 1024:
            return f"{size:.2f} {unit}"
        size /= 1024
```
When the loop exhausts the unit list (size ≥ 1024^5) the function falls
off the end and returns `None`.

The Python variable `size` after `k` iterations holds the IEEE double
`b / 1024^k`. For every byte count `b`, every threshold the loop ever
compares against is below `1024^5 = 2^50 < 2^53`, and division of a
double by 1024 only decrements the exponent, so on the whole range where
comparisons or formatting matter the double equals the exact rational
`b / 1024^k`. The model therefore carries the exact pair `(b, k)`:
the loop test `size < 1024` is `b < 1024^(k+1)` and the rendered value
is the rational `b / 1024^k`, rounded to two decimals exactly as
CPython's `f"{x:.2f}"` rounds the exact value of the double
(round half to even). -/

/-- Two-digit rendering of a number below 100 (the fractional part). -/
def nat2 (n : ℕ) : String := if n < 10 then "0" ++ toString n else toString n

/-- `f"{x:.2f}"` for the exact nonnegative value `n / d` (`d > 0`):
round `n/d` to hundredths, half to even, and print. -/
def fmt2 (n d : ℕ) : String :=
  let f := n * 100 / d
  let r := n * 100 % d
  let h := if 2 * r < d then f else if d < 2 * r then f + 1 else if f % 2 = 0 then f else f + 1
  toString (h / 100) ++ "." ++ nat2 (h % 100)

/-- The `for unit in [...]` loop of `format_size`; `k` counts the
divisions by 1024 performed so far, so `size` is `b / 1024^k`. -/
def formatLoop (b : ℕ) : ℕ → List String → Option String
  | _, [] => none
  | k, u :: us =>
    if b < 1024 ^ (k + 1) then some (fmt2 b (1024 ^ k) ++ " " ++ u)
    else formatLoop b (k + 1) us

/-- `format_size(size)` on a byte count. -/
def format_size (b : ℕ) : Option String :=
  formatLoop b 0 ["B", "KB", "MB", "GB", "TB"]

/-- Unit of index `k` on the B/KB/MB/GB/TB ladder. -/
def unitName (k : ℕ) : String := ["B", "KB", "MB", "GB", "TB"].getD k ""

/-! ## `log_event` (src/python/archive_dir.py lines 59-75)

```python
def log_event(event_type, file_path, message, conn):
    retries = 5
    while retries > 0:
        try:
            cursor.execute('INSERT INTO events ...'); conn.commit(); break
        except sqlite3.OperationalError as e:
            if "database is locked" in str(e):
                retries -= 1
                time.sleep(1)
            else:
                raise
```
The outcome of the `n`-th insert attempt is an input of the model. When
all five attempts hit a lock the loop condition becomes false and the
function returns normally: nothing is raised and the event is lost. -/

/-- Outcome of one `INSERT`/`commit` attempt against the database. -/
inductive DbOutcome
  | ok
  | locked
  | err (msg : String)
deriving DecidableEq

/-- Observable result of `log_event`: whether the row was inserted,
the exception that propagated (if any), and the argument of each
`time.sleep` call, in order. -/
structure LogResult where
  inserted : Bool
  raised : Option String
  sleeps : List ℕ
deriving DecidableEq

/-- The `while retries > 0` loop; `i` is the index of the next attempt,
the second argument the remaining `retries`. -/
def logEventLoop (attempt : ℕ → DbOutcome) (i : ℕ) : ℕ → LogResult
  | 0 => ⟨false, none, []⟩
  | retries + 1 =>
    match attempt i with
    | .ok => ⟨true, none, []⟩
    | .locked =>
      let r := logEventLoop attempt (i + 1) retries
      ⟨r.inserted, r.raised, 1 :: r.sleeps⟩
    | .err m => ⟨false, some m, []⟩

/-- `log_event` given the outcome of each attempt. -/
def log_event (attempt : ℕ → DbOutcome) : LogResult := logEventLoop attempt 0 5

/-! ## The catalog: `files` rows and `events` rows

Schema of `compress_files_and_save_to_db` (src/python/archive_dir.py
lines 77-103). The random `uuid4` primary key is not modelled. -/

/-- Raw decoded pixel bytes of a thumbnail. -/
abbrev Bytes := List ℕ

/-- One row of the `files` table. `content_type` is `none` when
`mimetypes.guess_type` failed (SQL `NULL`); directory rows carry the
literal string `"directory"`. -/
structure Row where
  filename : String
  filepath : String
  content_type : Option String
  size : ℕ
  creation_time : String
  modification_time : String
  thumbnail : Option Bytes
  is_duplicate : Bool
  original_path : String
  batch : String
deriving DecidableEq

/-- One row of the `events` table (the `uuid4` id and wall-clock
timestamp are not modelled). -/
structure Event where
  event_type : String
  file_path : String
  message : String
deriving DecidableEq

/-! ## Filesystem items fed to the pipeline

`os.walk` hands the pipeline directories and files; each item carries
the data the script reads from the filesystem plus the outcome of the
external calls it triggers (`7z`, thumbnail decoding). The stat fields
of a file are prefixed `src` because `stat = os.stat(file_path)` at
line 144 reads the SOURCE file, before compression; the `dest` fields
carry what a stat of the produced `.7z` artifact would return — the
script never reads them. -/

/-- Outcome of `generate_thumbnail`'s decoding work (PIL / moviepy /
cairosvg): either a result (possibly `none`, e.g. an image type PIL
leaves without bytes) or a raised exception, which `generate_thumbnail`
catches and logs (lines 54-56). -/
inductive ThumbOutcome
  | success (t : Option Bytes)
  | failure (msg : String)
deriving DecidableEq

/-- A directory entry of the walk: `name` is `dir`, `reldir` is
`os.path.relpath(root, src_dir)`, `srcPath` is `os.path.join(root, dir)`,
and the stat fields come from `os.stat(dir_path)` (lines 112-119). -/
structure DirItem where
  name : String
  reldir : String
  srcPath : String
  size : ℕ
  ctime : String
  mtime : String
deriving DecidableEq

/-- A file entry of the walk: `name` is `file`, `reldir` is
`os.path.relpath(root, src_dir)`, `srcPath` is
`os.path.join(root, file)`. `srcSize`/`srcCtime`/`srcMtime` are
`os.stat(file_path)` of the SOURCE file (line 144); `destSize` etc.
describe the compressed artifact (never read by this script).
`compressOk` is whether the `7z` child process exits 0 (`check=True`
raises otherwise, line 167) and `compressErrMsg` the `str(e)` of that
exception; `thumbOutcome` is the decoding outcome when a thumbnail is
attempted. -/
structure FileItem where
  name : String
  reldir : String
  srcPath : String
  srcSize : ℕ
  srcCtime : String
  srcMtime : String
  destSize : ℕ
  destCtime : String
  destMtime : String
  contentType : Option String
  compressOk : Bool
  compressErrMsg : String
  thumbOutcome : ThumbOutcome
deriving DecidableEq

/-- One item of the `os.walk` traversal, in traversal order. -/
inductive Item
  | dir (d : DirItem)
  | file (f : FileItem)
deriving DecidableEq

/-- State threaded through the pipeline: the two tables plus the record
of external invocations (each `subprocess.run(['7z', ...])` destination
archive path, and the number of `generate_thumbnail` calls). -/
structure ArchiveState where
  rows : List Row
  events : List Event
  compressCalls : List String
  thumbAttempts : ℕ
deriving DecidableEq

/-- Fresh database: both tables empty, nothing invoked yet. -/
def emptyState : ArchiveState := ⟨[], [], [], 0⟩

/-- The duplicate query (lines 147-150):
`SELECT filepath FROM files WHERE filename = ? AND size = ? AND
creation_time = ? AND modification_time = ?`, parameterised by the
source-side stat of the file at hand. -/
def fileKeyMatch (f : FileItem) (r : Row) : Bool :=
  r.filename == f.name && r.size == f.srcSize &&
    r.creation_time == f.srcCtime && r.modification_time == f.srcMtime

/-- `cursor.fetchone()` on the duplicate query: first matching row in
natural (rowid/insertion) order. -/
def findOriginal (rows : List Row) (f : FileItem) : Option Row :=
  rows.find? (fileKeyMatch f)

/-- Python `s.startswith(pre)`, at character level. -/
def pyStartswith (s pre : String) : Bool := pre.toList.isPrefixOf s.toList

/-- `content_type and (content_type.startswith('image/') or
content_type.startswith('video/'))` (line 171). -/
def isMedia : Option String → Bool
  | some s => pyStartswith s "image/" || pyStartswith s "video/"
  | none => false

/-- Directory row (lines 121-128): unconditional insert, content type
the literal `"directory"`, never checked for duplicates, no thumbnail,
`original_path` the absolute source-side directory path, `filepath` the
batch-free relative path `os.path.join(relative_path, dir)`. -/
def dirRow (batch : String) (d : DirItem) : Row :=
  { filename := d.name
    filepath := pjoin d.reldir d.name
    content_type := some "directory"
    size := d.size
    creation_time := d.ctime
    modification_time := d.mtime
    thumbnail := none
    is_duplicate := false
    original_path := d.srcPath
    batch := batch }

/-- `filepath` stored for a file row, duplicate or not (lines 158, 176):
`os.path.join(relative_path, file + '.7z').replace("\\", "/")`. -/
def fileFilepath (f : FileItem) : String := pjoin f.reldir (f.name ++ ".7z")

/-- Duplicate row (lines 154-160): no compression, no thumbnail,
`original_path` is the `filepath` of the matched earlier row. -/
def dupRow (batch : String) (f : FileItem) (origPath : String) : Row :=
  { filename := f.name
    filepath := fileFilepath f
    content_type := f.contentType
    size := f.srcSize
    creation_time := f.srcCtime
    modification_time := f.srcMtime
    thumbnail := none
    is_duplicate := true
    original_path := origPath
    batch := batch }

/-- Value returned by `generate_thumbnail` when it is called:
the decoded bytes on success, `None` when decoding raised (the
exception is caught inside `generate_thumbnail`). -/
def thumbValue (f : FileItem) : Option Bytes :=
  match f.thumbOutcome with
  | .success t => t
  | .failure _ => none

/-- Events logged by a `generate_thumbnail` call (lines 54-56): one
"Error generating thumbnail" row when decoding raised. -/
def thumbEvents (f : FileItem) : List Event :=
  match f.thumbOutcome with
  | .success _ => []
  | .failure m => [⟨"Error generating thumbnail", f.srcPath, m⟩]

/-- Non-duplicate file row (lines 173-178): `original_path` is the
absolute SOURCE path of the file, stat fields the source-side stat. -/
def freshRow (batch : String) (f : FileItem) : Row :=
  { filename := f.name
    filepath := fileFilepath f
    content_type := f.contentType
    size := f.srcSize
    creation_time := f.srcCtime
    modification_time := f.srcMtime
    thumbnail := if isMedia f.contentType then thumbValue f else none
    is_duplicate := false
    original_path := f.srcPath
    batch := batch }

/-- Destination archive path handed to `7z`
(line 163: `os.path.join(dest_path, file + '.7z')`). -/
def zipPath (dest_dir : String) (f : FileItem) : String :=
  pjoin (pjoin dest_dir f.reldir) (f.name ++ ".7z")

/-- Body of the `for file in files` loop (lines 133-182). The
`try`/`except` catches any exception, logs "Error processing file" and
moves on; the modelled exception source is the `check=True` of the `7z`
child process, which raises after the invocation was made, so the
failing call is still recorded but no row is inserted. -/
def processFile (batch dest_dir : String) (st : ArchiveState) (f : FileItem) : ArchiveState :=
  match findOriginal st.rows f with
  | some orig =>
    { st with rows := st.rows ++ [dupRow batch f orig.filepath] }
  | none =>
    if f.compressOk then
      { rows := st.rows ++ [freshRow batch f]
        events := st.events ++ (if isMedia f.contentType then thumbEvents f else [])
        compressCalls := st.compressCalls ++ [zipPath dest_dir f]
        thumbAttempts := st.thumbAttempts + (if isMedia f.contentType then 1 else 0) }
    else
      { st with
        events := st.events ++ [⟨"Error processing file", f.srcPath, f.compressErrMsg⟩]
        compressCalls := st.compressCalls ++ [zipPath dest_dir f] }

/-- One step of the walk: directories are inserted unconditionally,
files go through the duplicate check / compression / thumbnail path. -/
def processItem (batch dest_dir : String) (st : ArchiveState) : Item → ArchiveState
  | .dir d => { st with rows := st.rows ++ [dirRow batch d] }
  | .file f => processFile batch dest_dir st f

/-- `compress_files_and_save_to_db(src_dir, dest_dir, conn, timestamp)`
(src/python/archive_dir.py lines 77-184) on a traversal `items`,
writing into the catalog state `st`. -/
def compress_files_and_save_to_db (batch dest_dir : String) (items : List Item)
    (st : ArchiveState) : ArchiveState :=
  items.foldl (processItem batch dest_dir) st

/-! ## The legacy iteration (src/archive_dir.py, `generate_directory_tree_to_db`,
lines 72-121)

The legacy script walks the DESTINATION tree after compression:
`stat = os.stat(dest_file_path)` (line 109), so its rows record the
compressed artifact's stat, and its `filepath` is
`os.path.join(timestamp, relative_path, file)` — prefixed by the batch
timestamp. Its schema has neither `is_duplicate` nor `original_path`
nor `batch` columns. -/

/-- A compressed file as found walking the legacy destination tree:
`name` is the original filename (`file.replace('.7z', '')`), the walked
file is `name ++ ".7z"`, and the stat fields come from the destination
artifact. -/
structure LegacyFile where
  name : String
  reldir : String
  destSize : ℕ
  destCtime : String
  destMtime : String
  contentType : Option String
  thumbnail : Option Bytes
deriving DecidableEq

/-- One row of the legacy `files` table. -/
structure LegacyRow where
  filename : String
  filepath : String
  content_type : Option String
  size : ℕ
  creation_time : String
  modification_time : String
  thumbnail : Option Bytes
deriving DecidableEq

/-- Legacy file row (src/archive_dir.py lines 103-117). -/
def legacy_file_row (timestamp : String) (f : LegacyFile) : LegacyRow :=
  { filename := f.name
    filepath := pjoin timestamp (pjoin f.reldir (f.name ++ ".7z"))
    content_type := f.contentType
    size := f.destSize
    creation_time := f.destCtime
    modification_time := f.destMtime
    thumbnail := f.thumbnail }

/-! ## `upload_to_azure` (src/python/archive_dir.py lines 186-212)

```python
cursor.execute('SELECT filepath FROM files WHERE batch = ?
                AND is_duplicate = 0 AND content_type != "directory"', ...)
for row in cursor.fetchall():
    local_file = (dest_dir + '/' + file_path).replace("\\", "/")
    blob_file = (timestamp + '/' + file_path).replace("\\", "/")
    ...
    blob_client.upload_blob(data, overwrite=True)
```
SQLite's `content_type != "directory"` is three-valued: a `NULL`
`content_type` makes the comparison `NULL`, so the row is NOT selected.
A failed upload is caught and logged "Error uploading file to Azure"
(the per-row failure message is an input of the model). -/

/-- The SQL `WHERE` clause of the upload query, with SQL three-valued
semantics for the `!=` against `NULL`. -/
def uploadPred (batch : String) (r : Row) : Bool :=
  r.batch == batch && r.is_duplicate == false &&
    (match r.content_type with
     | some s => s != "directory"
     | none => false)

/-- One `upload_blob` call: local source path, blob path, overwrite. -/
structure UploadCall where
  localPath : String
  blobPath : String
  overwrite : Bool
deriving DecidableEq

/-- `upload_to_azure(container, connstr, dest_dir, timestamp, conn)`:
the upload calls made and the events logged, given the rows of the
catalog and the failure message (if any) of each row's upload. -/
def upload_to_azure (dest_dir batch : String) (rows : List Row)
    (failMsg : Row → Option String) : List UploadCall × List Event :=
  let selected := rows.filter (uploadPred batch)
  (selected.map (fun r => ⟨dest_dir ++ "/" ++ r.filepath, batch ++ "/" ++ r.filepath, true⟩),
   selected.filterMap (fun r =>
     (failMsg r).map (fun m => ⟨"Error uploading file to Azure", r.filepath, m⟩)))

/-! ## `search_database` (src/search_db.py lines 11-24)

```python
query = "SELECT id, filename, content_type, size, filepath FROM files WHERE "
query += " AND ".join([f"{key} LIKE ?" for key in filter_criteria.keys()])
values = [f"%{value}%" for value in filter_criteria.values()]
```
With an empty criteria mapping the query ends in a bare `WHERE` and
sqlite3 raises an `OperationalError` (modelled as `none`). SQLite's
default `LIKE` is case-insensitive for the ASCII range: `%` matches any
character sequence, `_` any single character, and a plain character
matches up to ASCII case folding. `LIKE` on the INTEGER `size` column
coerces the value to its decimal text. -/

/-- SQLite `LIKE` on pattern and text (no `ESCAPE` clause), ASCII
case-insensitive as per the engine default. `%` consumes any (possibly
empty) sequence: the rest of the pattern must match some suffix. -/
def likeMatch : List Char → List Char → Bool
  | [], t => t.isEmpty
  | q :: ps, t =>
    if q = '%' then t.tails.any (likeMatch ps)
    else
      match t with
      | [] => false
      | c :: ts => (if q = '_' then true else q.toLower == c.toLower) && likeMatch ps ts

/-- A `files` row as seen by the search tool (the columns its filters
may name; the BLOB `thumbnail` column is not a filter target). -/
structure DbRow where
  id : String
  filename : String
  filepath : String
  content_type : Option String
  size : ℕ
  creation_time : String
  modification_time : String
deriving DecidableEq

/-- Text the `LIKE` of a given column compares against: `NULL` for a
missing `content_type` (then `LIKE` yields `NULL`, so no match), the
decimal rendering for the INTEGER `size` column. -/
def colText (r : DbRow) : String → Option String
  | "id" => some r.id
  | "filename" => some r.filename
  | "filepath" => some r.filepath
  | "content_type" => r.content_type
  | "size" => some (toString r.size)
  | "creation_time" => some r.creation_time
  | "modification_time" => some r.modification_time
  | _ => none

/-- `column LIKE '%value%'` for one criterion. -/
def critMatch (r : DbRow) (kv : String × String) : Bool :=
  match colText r kv.1 with
  | some s => likeMatch ('%' :: (kv.2.toList ++ ['%'])) s.toList
  | none => false

/-- Projection of the `SELECT id, filename, content_type, size, filepath`. -/
def searchProj (r : DbRow) : String × String × Option String × ℕ × String :=
  (r.id, r.filename, r.content_type, r.size, r.filepath)

/-- `search_database(db_path, filter_criteria)` on a table state:
`none` models the `OperationalError` of the malformed empty-criteria
query; otherwise the projected rows whose every named column matches
its `LIKE` pattern, in natural (insertion/rowid) order. -/
def search_database (rows : List DbRow) (criteria : List (String × String)) :
    Option (List (String × String × Option String × ℕ × String)) :=
  if criteria.isEmpty then none
  else some ((rows.filter (fun r => criteria.all (critMatch r))).map searchProj)

/-! ## Helper notions for the run-shape lemmas -/

/-- The quadruple the duplicate query matches on. -/
def rowKey (r : Row) : String × ℕ × String × String :=
  (r.filename, r.size, r.creation_time, r.modification_time)

/-- The same quadruple read off a walk item (for a file, the
source-side stat the script feeds into the duplicate query). -/
def ikey : Item → String × ℕ × String × String
  | .dir d => (d.name, d.size, d.ctime, d.mtime)
  | .file f => (f.name, f.srcSize, f.srcCtime, f.srcMtime)

/-- Row inserted for an item on a run that finds no duplicate match. -/
def row1 (batch : String) : Item → Row
  | .dir d => dirRow batch d
  | .file f => freshRow batch f

/-- Row inserted for an item on a run that finds no duplicate match,
`none` when the `7z` invocation fails (no row is inserted then). -/
def row1? (batch : String) : Item → Option Row
  | .dir d => some (dirRow batch d)
  | .file f => if f.compressOk then some (freshRow batch f) else none

/-- Event logged while processing an item on a run that finds no
duplicate match. -/
def eventOf : Item → Option Event
  | .dir _ => none
  | .file f =>
    if f.compressOk then
      if isMedia f.contentType then
        match f.thumbOutcome with
        | .success _ => none
        | .failure m => some ⟨"Error generating thumbnail", f.srcPath, m⟩
      else none
    else some ⟨"Error processing file", f.srcPath, f.compressErrMsg⟩

/-- Row inserted for an item on a rerun against an unchanged tree:
directories are re-inserted as is, every file becomes a duplicate row
pointing at the first run's stored `filepath`. -/
def row2 (batch : String) : Item → Row
  | .dir d => dirRow batch d
  | .file f => dupRow batch f (fileFilepath f)

/-! ## Concrete fixtures used by witnesses and counterexamples -/

/-- The `filepath` a row stores for an item: its batch-free
forward-slash relative path, `.7z`-suffixed for files. -/
def itemFilepath : Item → String
  | .dir d => pjoin d.reldir d.name
  | .file f => fileFilepath f

/-- Attempt sequence for the C3 witness: locked twice, then success. -/
def attemptSeq : ℕ → DbOutcome := fun i => if i < 2 then DbOutcome.locked else DbOutcome.ok

/-- Upload-phase fixtures: three non-duplicate files with a known
content type, one duplicate, one directory row, and a non-duplicate
file whose MIME guess failed (`content_type` NULL). -/
def uRow1 : Row :=
  { filename := "a.txt", filepath := "sub/a.txt.7z", content_type := some "text/plain",
    size := 10, creation_time := "c1", modification_time := "m1", thumbnail := none,
    is_duplicate := false, original_path := "/s/sub/a.txt", batch := "B" }

def uRow2 : Row :=
  { filename := "b.txt", filepath := "sub/b.txt.7z", content_type := some "text/plain",
    size := 11, creation_time := "c2", modification_time := "m2", thumbnail := none,
    is_duplicate := false, original_path := "/s/sub/b.txt", batch := "B" }

def uRow3 : Row :=
  { filename := "c.txt", filepath := "sub/c.txt.7z", content_type := some "text/plain",
    size := 12, creation_time := "c3", modification_time := "m3", thumbnail := none,
    is_duplicate := false, original_path := "/s/sub/c.txt", batch := "B" }

def uRow4 : Row :=
  { filename := "a.txt", filepath := "other/a.txt.7z", content_type := some "text/plain",
    size := 10, creation_time := "c1", modification_time := "m1", thumbnail := none,
    is_duplicate := true, original_path := "sub/a.txt.7z", batch := "B" }

def uRow5 : Row :=
  { filename := "sub", filepath := "sub", content_type := some "directory",
    size := 4096, creation_time := "c5", modification_time := "m5", thumbnail := none,
    is_duplicate := false, original_path := "/s/sub", batch := "B" }

def uRowNoCT : Row :=
  { filename := "noext", filepath := "sub/noext.7z", content_type := none,
    size := 13, creation_time := "c6", modification_time := "m6", thumbnail := none,
    is_duplicate := false, original_path := "/s/sub/noext", batch := "B" }

def uploadRows : List Row := [uRow1, uRow2, uRow3, uRow4, uRow5]

/-- Whether an item's external compression succeeds (trivially true for
directories, which are not compressed). -/
def itemOk : Item → Bool
  | .dir _ => true
  | .file f => f.compressOk

/-- Source path of a file item (`none` for directories). -/
def pathOf : Item → Option String
  | .file f => some f.srcPath
  | .dir _ => none

/-- Source paths of the file items of a traversal, in order. -/
def filePathsOf (items : List Item) : List String := items.filterMap pathOf

/-- ASCII case folding of a character list, as SQLite's default `LIKE`
applies it. -/
def lower (l : List Char) : List Char := l.map Char.toLower

/-- A filter value without `LIKE` wildcards. -/
def noWild (v : List Char) : Prop := ∀ c ∈ v, c ≠ '%' ∧ c ≠ '_'

instance noWildDecidable (v : List Char) : Decidable (noWild v) :=
  inferInstanceAs (Decidable (∀ c ∈ v, c ≠ '%' ∧ c ≠ '_'))

/-- Case-insensitive-substring reading of a criteria set: every named
column's text contains the value up to ASCII case. -/
def substrFilter (criteria : List (String × String)) (r : DbRow) : Bool :=
  criteria.all (fun kv =>
    match colText r kv.1 with
    | some s => decide (lower kv.2.toList <:+: lower s.toList)
    | none => false)

/-- Search fixtures for the concrete clauses. -/
def reportRow : DbRow :=
  { id := "id1", filename := "report.pdf", filepath := "sub/report.pdf.7z",
    content_type := some "application/pdf", size := 100,
    creation_time := "c1", modification_time := "m1" }

def finalRow : DbRow :=
  { id := "id2", filename := "report_final.pdf", filepath := "sub/report_final.pdf.7z",
    content_type := some "application/pdf", size := 120,
    creation_time := "c2", modification_time := "m2" }

def upperRow : DbRow :=
  { id := "id3", filename := "REPORT.PDF", filepath := "sub/REPORT.PDF.7z",
    content_type := some "application/pdf", size := 130,
    creation_time := "c3", modification_time := "m3" }

/-- A subdirectory of the archived tree. -/
def dirA : DirItem :=
  { name := "sub", reldir := ".", srcPath := "/data/sub", size := 4096,
    ctime := "2024-01-01T10:00:00", mtime := "2024-01-01T10:05:00" }

/-- A plain document whose compressed artifact is smaller than the
source (destSize 64 vs srcSize 1000). -/
def fileA : FileItem :=
  { name := "report.pdf", reldir := "sub", srcPath := "/data/sub/report.pdf",
    srcSize := 1000, srcCtime := "2024-01-01T08:00:00", srcMtime := "2024-01-02T08:00:00",
    destSize := 64, destCtime := "2024-03-01T00:00:00", destMtime := "2024-03-01T00:00:01",
    contentType := some "application/pdf", compressOk := true, compressErrMsg := "",
    thumbOutcome := .success none }

/-- An image that thumbnails successfully. -/
def fileB : FileItem :=
  { name := "pic.png", reldir := "sub", srcPath := "/data/sub/pic.png",
    srcSize := 2000, srcCtime := "2024-01-03T08:00:00", srcMtime := "2024-01-04T08:00:00",
    destSize := 1800, destCtime := "2024-03-01T00:10:00", destMtime := "2024-03-01T00:10:01",
    contentType := some "image/png", compressOk := true, compressErrMsg := "",
    thumbOutcome := .success (some [7, 7, 7]) }

/-- A file whose `7z` child process fails (`check=True` raises). -/
def fileBad : FileItem :=
  { name := "broken.bin", reldir := "sub", srcPath := "/data/sub/broken.bin",
    srcSize := 3000, srcCtime := "2024-01-05T08:00:00", srcMtime := "2024-01-06T08:00:00",
    destSize := 0, destCtime := "", destMtime := "",
    contentType := none, compressOk := false,
    compressErrMsg := "Command '7z' returned non-zero exit status 2.",
    thumbOutcome := .success none }

/-- A corrupt image: compression succeeds, thumbnail decoding raises. -/
def fileC : FileItem :=
  { name := "corrupt.jpg", reldir := "sub", srcPath := "/data/sub/corrupt.jpg",
    srcSize := 4000, srcCtime := "2024-01-07T08:00:00", srcMtime := "2024-01-08T08:00:00",
    destSize := 3900, destCtime := "2024-03-01T00:20:00", destMtime := "2024-03-01T00:20:01",
    contentType := some "image/jpeg", compressOk := true, compressErrMsg := "",
    thumbOutcome := .failure "cannot identify image file" }

/-- A compressed file as the legacy script sees it. -/
def legacyA : LegacyFile :=
  { name := "report.pdf", reldir := "sub", destSize := 64,
    destCtime := "2024-03-01T00:00:00", destMtime := "2024-03-01T00:00:01",
    contentType := some "application/pdf", thumbnail := none }

/-- Traversal used by the dedup-idempotence witness. -/
def itemsW : List Item := [Item.dir dirA, Item.file fileA, Item.file fileB]

/-- Traversal used by the error-containment witness: a good image, a
file whose compression fails, a corrupt image. -/
def itemsE : List Item := [Item.file fileB, Item.file fileBad, Item.file fileC]

/-! ## Lemmas and claim theorems -/

lemma fileKeyMatch_iff (f : FileItem) (r : Row) :
    fileKeyMatch f r = true ↔ rowKey r = ikey (Item.file f) := by
  simp [fileKeyMatch, rowKey, ikey, Prod.ext_iff, Bool.and_eq_true, beq_iff_eq, and_assoc]

lemma rowKey_row1 (b : String) (it : Item) : rowKey (row1 b it) = ikey it := by
  cases it <;> rfl

lemma rowKey_row1? (b : String) {it : Item} {r : Row} (h : row1? b it = some r) :
    rowKey r = ikey it := by
  cases it with
  | dir d => simp [row1?] at h; subst h; rfl
  | file f =>
    simp only [row1?] at h
    by_cases hc : f.compressOk
    · simp [hc] at h; subst h; rfl
    · simp [hc] at h

lemma row1_not_dup (b : String) (it : Item) : (row1 b it).is_duplicate = false := by
  cases it <;> rfl

/-- A `processItem` step whose duplicate lookup finds nothing appends
`row1?` and logs `eventOf`, leaving earlier rows untouched. -/
lemma processItem_shape (batch dest_dir : String) (st : ArchiveState) (it : Item)
    (h : ∀ f, it = Item.file f → findOriginal st.rows f = none) :
    (processItem batch dest_dir st it).rows = st.rows ++ (row1? batch it).toList
    ∧ (processItem batch dest_dir st it).events = st.events ++ (eventOf it).toList := by
  cases it with
  | dir d => simp [processItem, row1?, eventOf]
  | file f =>
    have hf := h f rfl
    simp only [processItem, processFile, hf]
    by_cases hc : f.compressOk
    · by_cases hm : isMedia f.contentType
      · cases ht : f.thumbOutcome with
        | success t => simp [hc, hm, ht, row1?, eventOf, thumbEvents]
        | failure m => simp [hc, hm, ht, row1?, eventOf, thumbEvents]
      · simp [hc, hm, row1?, eventOf]
    · simp [hc, row1?, eventOf]

/-- First-run shape: folding the pipeline over items whose keys are
fresh (none matches an existing row) and pairwise distinct appends
exactly the `row1?` rows and the `eventOf` events. -/
lemma fold_fresh (batch dest_dir : String) :
    ∀ (todo : List Item) (st : ArchiveState),
      (∀ r ∈ st.rows, ∀ f, Item.file f ∈ todo → rowKey r ≠ ikey (Item.file f)) →
      (todo.map ikey).Nodup →
      (compress_files_and_save_to_db batch dest_dir todo st).rows
          = st.rows ++ todo.filterMap (row1? batch)
      ∧ (compress_files_and_save_to_db batch dest_dir todo st).events
          = st.events ++ todo.filterMap eventOf := by
  intro todo
  induction todo with
  | nil => intro st _ _; simp [compress_files_and_save_to_db]
  | cons it tl ih =>
    intro st hdisj hnd
    have hnone : ∀ f, it = Item.file f → findOriginal st.rows f = none := by
      intro f hit
      rw [findOriginal, List.find?_eq_none]
      intro r hr hmatch
      exact hdisj r hr f (hit ▸ List.mem_cons_self it tl)
        ((fileKeyMatch_iff f r).mp hmatch)
    obtain ⟨hrows, hevents⟩ := processItem_shape batch dest_dir st it hnone
    have hnd0 : (ikey it :: tl.map ikey).Nodup := by simpa using hnd
    have hnotin : ikey it ∉ tl.map ikey := (List.nodup_cons.mp hnd0).1
    have hnd' : (tl.map ikey).Nodup := (List.nodup_cons.mp hnd0).2
    have hdisj' : ∀ r ∈ (processItem batch dest_dir st it).rows,
        ∀ f, Item.file f ∈ tl → rowKey r ≠ ikey (Item.file f) := by
      intro r hr f hf
      rw [hrows] at hr
      rcases List.mem_append.mp hr with hold | hnew
      · exact hdisj r hold f (List.mem_cons_of_mem it hf)
      · intro hkey
        rcases Option.mem_toList.mp hnew with hr1
        have : rowKey r = ikey it := rowKey_row1? batch hr1
        apply hnotin
        rw [← this, hkey]
        exact List.mem_map_of_mem ikey hf
    have step : compress_files_and_save_to_db batch dest_dir (it :: tl) st
        = compress_files_and_save_to_db batch dest_dir tl (processItem batch dest_dir st it) :=
      rfl
    obtain ⟨ih1, ih2⟩ := ih (processItem batch dest_dir st it) hdisj' hnd'
    constructor
    · rw [step, ih1, hrows, List.append_assoc, List.filterMap_cons]
      cases h1 : row1? batch it <;> simp [h1]
    · rw [step, ih2, hevents, List.append_assoc, List.filterMap_cons]
      cases h1 : eventOf it <;> simp [h1]

/-- When every file of the traversal compresses successfully, every
item inserts its row. -/
lemma filterMap_row1_eq_map (b : String) (items : List Item)
    (hok : ∀ f, Item.file f ∈ items → f.compressOk = true) :
    items.filterMap (row1? b) = items.map (row1 b) := by
  induction items with
  | nil => rfl
  | cons it tl ih =>
    have htl : ∀ f, Item.file f ∈ tl → f.compressOk = true := fun f hf =>
      hok f (List.mem_cons_of_mem it hf)
    cases it with
    | dir d => simp [row1?, row1, ih htl]
    | file f =>
      have := hok f (List.mem_cons_self _ tl)
      simp [row1?, row1, this, ih htl]

/-- In the first run's rows, the duplicate query for a file of the same
traversal finds exactly that file's own stored row (keys pairwise
distinct). -/
lemma find?_map_row1 (b : String) {items : List Item} {f : FileItem}
    (hnd : (items.map ikey).Nodup) (hmem : Item.file f ∈ items) :
    (items.map (row1 b)).find? (fileKeyMatch f) = some (freshRow b f) := by
  induction items with
  | nil => cases hmem
  | cons it tl ih =>
    have hnd0 : (ikey it :: tl.map ikey).Nodup := by simpa using hnd
    have hnotin : ikey it ∉ tl.map ikey := (List.nodup_cons.mp hnd0).1
    have hnd' : (tl.map ikey).Nodup := (List.nodup_cons.mp hnd0).2
    by_cases hit : it = Item.file f
    · subst hit
      have hpos : fileKeyMatch f (row1 b (Item.file f)) = true :=
        (fileKeyMatch_iff f _).mpr (rowKey_row1 b _)
      simp only [List.map_cons]
      rw [List.find?_cons_of_pos _ hpos]
      rfl
    · have hmem' : Item.file f ∈ tl := by
        rcases List.mem_cons.mp hmem with h | h
        · exact absurd h.symm hit
        · exact h
      have hneg : ¬ fileKeyMatch f (row1 b it) = true := by
        intro hm
        have : rowKey (row1 b it) = ikey (Item.file f) := (fileKeyMatch_iff f _).mp hm
        rw [rowKey_row1] at this
        exact hnotin (this ▸ List.mem_map_of_mem ikey hmem')
      simp only [List.map_cons]
      rw [List.find?_cons_of_neg _ hneg]
      exact ih hnd' hmem'

/-- Second-run shape: folding the pipeline over a traversal whose every
item already has its first-run row in the catalog turns every file into
a duplicate row and performs no compressor or thumbnail work. -/
lemma fold_dup (b1 b2 dest_dir : String) (items : List Item)
    (hnd : (items.map ikey).Nodup) :
    ∀ (todo : List Item) (extra : List Row) (ev : List Event) (cc : List String) (ta : ℕ),
      (∀ it ∈ todo, it ∈ items) →
      compress_files_and_save_to_db b2 dest_dir todo
          ⟨items.map (row1 b1) ++ extra, ev, cc, ta⟩
        = ⟨items.map (row1 b1) ++ (extra ++ todo.map (row2 b2)), ev, cc, ta⟩ := by
  intro todo
  induction todo with
  | nil => intro extra ev cc ta _; simp [compress_files_and_save_to_db]
  | cons it tl ih =>
    intro extra ev cc ta hsub
    have hit : it ∈ items := hsub it (List.mem_cons_self it tl)
    have hsub' : ∀ x ∈ tl, x ∈ items := fun x hx => hsub x (List.mem_cons_of_mem it hx)
    have step : compress_files_and_save_to_db b2 dest_dir (it :: tl)
          ⟨items.map (row1 b1) ++ extra, ev, cc, ta⟩
        = compress_files_and_save_to_db b2 dest_dir tl
            (processItem b2 dest_dir ⟨items.map (row1 b1) ++ extra, ev, cc, ta⟩ it) :=
      rfl
    cases it with
    | dir d =>
      have hproc : processItem b2 dest_dir ⟨items.map (row1 b1) ++ extra, ev, cc, ta⟩
            (Item.dir d)
          = ⟨items.map (row1 b1) ++ (extra ++ [dirRow b2 d]), ev, cc, ta⟩ := by
        simp [processItem]
      rw [step, hproc, ih (extra ++ [dirRow b2 d]) ev cc ta hsub']
      simp [row2]
    | file f =>
      have hfind : findOriginal (items.map (row1 b1) ++ extra) f = some (freshRow b1 f) := by
        rw [findOriginal, List.find?_append, find?_map_row1 b1 hnd hit]
        rfl
      have hproc : processItem b2 dest_dir ⟨items.map (row1 b1) ++ extra, ev, cc, ta⟩
            (Item.file f)
          = ⟨items.map (row1 b1) ++ (extra ++ [dupRow b2 f (fileFilepath f)]), ev, cc, ta⟩ := by
        simp only [processItem, processFile, hfind]
        simp [freshRow]
      rw [step, hproc, ih (extra ++ [dupRow b2 f (fileFilepath f)]) ev cc ta hsub']
      simp [row2]

/-! ## Concrete fixtures used by witnesses and counterexamples -/

/-! ## Claims -/

/-- C10: every directory catalog row written by the pipeline has
content_type `"directory"`, `is_duplicate = 0`, an absent thumbnail and
`original_path` the absolute source-side directory path; the insert is
unconditional — the result appends exactly this one row for EVERY prior
state, so directory entries never go through the duplicate check, and
no event, compressor call or thumbnail attempt is generated. -/
theorem C10_directory_row_shape (b dd : String) (st : ArchiveState) (d : DirItem) :
    (processItem b dd st (Item.dir d)).rows = st.rows ++ [dirRow b d]
    ∧ (dirRow b d).content_type = some "directory"
    ∧ (dirRow b d).is_duplicate = false
    ∧ (dirRow b d).thumbnail = none
    ∧ (dirRow b d).original_path = d.srcPath
    ∧ (processItem b dd st (Item.dir d)).events = st.events
    ∧ (processItem b dd st (Item.dir d)).compressCalls = st.compressCalls
    ∧ (processItem b dd st (Item.dir d)).thumbAttempts = st.thumbAttempts :=
  ⟨rfl, rfl, rfl, rfl, rfl, rfl, rfl, rfl⟩

/-- C9: a file recorded as a duplicate gets a catalog row whose
`filepath` still carries the `.7z` compression suffix, although the
duplicate branch performs no compressor invocation and no thumbnail
attempt — nothing is ever produced at that destination path by this
processing step. -/
theorem C9_duplicate_filepath_names_missing_artifact (b dd : String) (st : ArchiveState)
    (f : FileItem) (orig : Row) (h : findOriginal st.rows f = some orig) :
    (processFile b dd st f).rows = st.rows ++ [dupRow b f orig.filepath]
    ∧ (dupRow b f orig.filepath).is_duplicate = true
    ∧ (∃ stem, (dupRow b f orig.filepath).filepath = stem ++ ".7z")
    ∧ (processFile b dd st f).compressCalls = st.compressCalls
    ∧ (processFile b dd st f).thumbAttempts = st.thumbAttempts := by
  refine ⟨by simp [processFile, h], rfl, ?_, by simp [processFile, h], by simp [processFile, h]⟩
  have hfp : (dupRow b f orig.filepath).filepath = pjoin f.reldir (f.name ++ ".7z") := rfl
  rw [hfp, pjoin]
  by_cases hr : f.reldir = ""
  · exact ⟨f.name, by rw [if_pos hr]⟩
  · refine ⟨f.reldir ++ "/" ++ f.name, ?_⟩
    rw [if_neg hr]
    simp [String.append_assoc]

/-- C9 witness: re-processing `fileA` against a catalog already holding
its first-run row appends the duplicate row. -/
theorem C9_witness :
    (processFile "B2" "/dest" ⟨[freshRow "B1" fileA], [], [], 0⟩ fileA).rows
      = (⟨[freshRow "B1" fileA], [], [], 0⟩ : ArchiveState).rows
          ++ [dupRow "B2" fileA (freshRow "B1" fileA).filepath] :=
  (C9_duplicate_filepath_names_missing_artifact "B2" "/dest"
    ⟨[freshRow "B1" fileA], [], [], 0⟩ fileA (freshRow "B1" fileA) (by decide)).1

/-- C2 counterexample: the pipeline records `fileA`'s SOURCE stat
(size 1000, source timestamps), not the stat of the compressed
destination artifact (size 64, later timestamps) — `stat =
os.stat(file_path)` at line 144 runs on the source path before
compression. -/
theorem C2_counterexample :
    (processFile "B1" "/dest" emptyState fileA).rows = [freshRow "B1" fileA]
    ∧ (freshRow "B1" fileA).size = 1000
    ∧ fileA.destSize = 64
    ∧ (freshRow "B1" fileA).size ≠ fileA.destSize
    ∧ (freshRow "B1" fileA).creation_time = fileA.srcCtime
    ∧ (freshRow "B1" fileA).creation_time ≠ fileA.destCtime
    ∧ (freshRow "B1" fileA).modification_time ≠ fileA.destMtime := by decide

/-- C2 amended: in the catalog-writing pipeline
(`compress_files_and_save_to_db`) the recorded size, creation_time and
modification_time are the SOURCE file's stat, read before compression —
size is the original uncompressed byte count. Only the legacy
`generate_directory_tree_to_db` (src/archive_dir.py) stats the
destination copy after compression. -/
theorem C2_metadata_provenance (b dd : String) (st : ArchiveState) (f : FileItem)
    (hfind : findOriginal st.rows f = none) (hok : f.compressOk = true) :
    (processFile b dd st f).rows = st.rows ++ [freshRow b f]
    ∧ (freshRow b f).size = f.srcSize
    ∧ (freshRow b f).creation_time = f.srcCtime
    ∧ (freshRow b f).modification_time = f.srcMtime
    ∧ (∀ ts lf, (legacy_file_row ts lf).size = lf.destSize
        ∧ (legacy_file_row ts lf).creation_time = lf.destCtime
        ∧ (legacy_file_row ts lf).modification_time = lf.destMtime) :=
  ⟨by simp [processFile, hfind, hok], rfl, rfl, rfl, fun _ _ => ⟨rfl, rfl, rfl⟩⟩

/-- C2 witness: the amended statement at `fileA` on an empty catalog. -/
theorem C2_witness :
    (processFile "B1" "/dest" emptyState fileA).rows = emptyState.rows ++ [freshRow "B1" fileA] :=
  (C2_metadata_provenance "B1" "/dest" emptyState fileA (by decide) (by decide)).1

/-- C6 counterexample: archiving `fileA` under batch
`"20240101000000"` stores `filepath = "sub/report.pdf.7z"`, which is
not prefixed by the batch identifier. -/
theorem C6_counterexample :
    (compress_files_and_save_to_db "20240101000000" "/dest" [Item.file fileA]
        emptyState).rows.map Row.filepath = ["sub/report.pdf.7z"]
    ∧ ¬ ("20240101000000".toList <+: "sub/report.pdf.7z".toList) := by
  exact ⟨by decide, by decide⟩

/-- C6 amended: in the final pipeline every catalog row's `filepath` is
the entry's path relative to the archive root, forward-slash separated
and `.7z`-suffixed for files, WITHOUT a batch prefix (the batch lives
in the separate `batch` column and is prepended only when the uploader
builds blob paths); a duplicate file's `filepath` is still its own
location path while `original_path` carries the matched row's path.
Only the legacy `generate_directory_tree_to_db` prefixes `filepath`
with the batch timestamp. -/
theorem C6_filepath_shape (b dd : String) (st : ArchiveState) (it : Item) :
    ((processItem b dd st it).rows = st.rows
      ∨ ∃ r, (processItem b dd st it).rows = st.rows ++ [r]
          ∧ r.filepath = itemFilepath it ∧ r.batch = b)
    ∧ (∀ f orig, it = Item.file f → findOriginal st.rows f = some orig →
        (processItem b dd st it).rows = st.rows ++ [dupRow b f orig.filepath]
        ∧ (dupRow b f orig.filepath).filepath = fileFilepath f
        ∧ (dupRow b f orig.filepath).original_path = orig.filepath)
    ∧ (∀ ts lf, ts ≠ "" →
        (legacy_file_row ts lf).filepath
          = ts ++ "/" ++ pjoin lf.reldir (lf.name ++ ".7z")) := by
  refine ⟨?_, ?_, ?_⟩
  · cases it with
    | dir d => exact Or.inr ⟨dirRow b d, rfl, rfl, rfl⟩
    | file f =>
      cases hfind : findOriginal st.rows f with
      | some orig =>
        exact Or.inr ⟨dupRow b f orig.filepath, by simp [processItem, processFile, hfind],
          rfl, rfl⟩
      | none =>
        by_cases hc : f.compressOk
        · exact Or.inr ⟨freshRow b f, by simp [processItem, processFile, hfind, hc], rfl, rfl⟩
        · exact Or.inl (by simp [processItem, processFile, hfind, hc])
  · intro f orig hit hfind
    subst hit
    exact ⟨by simp [processItem, processFile, hfind], rfl, rfl⟩
  · intro ts lf hts
    have : (legacy_file_row ts lf).filepath = pjoin ts (pjoin lf.reldir (lf.name ++ ".7z")) :=
      rfl
    rw [this, pjoin, if_neg hts]

/-- C6 witness: the legacy contrast clause at a concrete timestamp. -/
theorem C6_witness :
    (legacy_file_row "20240101000000" legacyA).filepath
      = "20240101000000" ++ "/" ++ pjoin legacyA.reldir (legacyA.name ++ ".7z") :=
  ((C6_filepath_shape "B1" "/dest" emptyState (Item.file fileA)).2.2) "20240101000000" legacyA
    (by decide)

/-! ## C3: the `log_event` retry loop -/

lemma logEventLoop_all_locked (attempt : ℕ → DbOutcome) :
    ∀ (n i : ℕ), (∀ j, j < n → attempt (i + j) = DbOutcome.locked) →
      logEventLoop attempt i n = ⟨false, none, List.replicate n 1⟩ := by
  intro n
  induction n with
  | zero => intro i _; rfl
  | succ n ih =>
    intro i h
    have h0 : attempt i = DbOutcome.locked := by simpa using h 0 (Nat.succ_pos n)
    have hrec : logEventLoop attempt (i + 1) n = ⟨false, none, List.replicate n 1⟩ := by
      refine ih (i + 1) (fun j hj => ?_)
      have := h (j + 1) (Nat.succ_lt_succ hj)
      rwa [show i + (j + 1) = i + 1 + j by omega] at this
    simp [logEventLoop, h0, hrec, List.replicate_succ]

lemma logEventLoop_ok (attempt : ℕ → DbOutcome) :
    ∀ (k n i : ℕ), k < n → (∀ j, j < k → attempt (i + j) = DbOutcome.locked) →
      attempt (i + k) = DbOutcome.ok →
      logEventLoop attempt i n = ⟨true, none, List.replicate k 1⟩ := by
  intro k
  induction k with
  | zero =>
    intro n i hn _ hok
    cases n with
    | zero => omega
    | succ n =>
      have h0 : attempt i = DbOutcome.ok := by simpa using hok
      simp [logEventLoop, h0]
  | succ k ih =>
    intro n i hn h hok
    cases n with
    | zero => omega
    | succ n =>
      have h0 : attempt i = DbOutcome.locked := by simpa using h 0 (Nat.succ_pos k)
      have hrec : logEventLoop attempt (i + 1) n = ⟨true, none, List.replicate k 1⟩ := by
        refine ih n (i + 1) (by omega) (fun j hj => ?_) ?_
        · have := h (j + 1) (Nat.succ_lt_succ hj)
          rwa [show i + (j + 1) = i + 1 + j by omega] at this
        · rwa [show i + (k + 1) = i + 1 + k by omega] at hok
      simp [logEventLoop, h0, hrec, List.replicate_succ]

lemma logEventLoop_err (attempt : ℕ → DbOutcome) (m : String) :
    ∀ (k n i : ℕ), k < n → (∀ j, j < k → attempt (i + j) = DbOutcome.locked) →
      attempt (i + k) = DbOutcome.err m →
      logEventLoop attempt i n = ⟨false, some m, List.replicate k 1⟩ := by
  intro k
  induction k with
  | zero =>
    intro n i hn _ herr
    cases n with
    | zero => omega
    | succ n =>
      have h0 : attempt i = DbOutcome.err m := by simpa using herr
      simp [logEventLoop, h0]
  | succ k ih =>
    intro n i hn h herr
    cases n with
    | zero => omega
    | succ n =>
      have h0 : attempt i = DbOutcome.locked := by simpa using h 0 (Nat.succ_pos k)
      have hrec : logEventLoop attempt (i + 1) n = ⟨false, some m, List.replicate k 1⟩ := by
        refine ih n (i + 1) (by omega) (fun j hj => ?_) ?_
        · have := h (j + 1) (Nat.succ_lt_succ hj)
          rwa [show i + (j + 1) = i + 1 + j by omega] at this
        · rwa [show i + (k + 1) = i + 1 + k by omega] at herr
      simp [logEventLoop, h0, hrec, List.replicate_succ]

/-- C3 counterexample: when all five attempts find the database locked,
`log_event` returns normally — the row is not inserted, NOTHING is
raised (`raised = none`, against the claimed "propagated as fatal"),
and five 1-second sleeps were performed. -/
theorem C3_counterexample :
    log_event (fun _ => DbOutcome.locked)
      = ⟨false, none, [1, 1, 1, 1, 1]⟩ := by decide

/-- C3 amended: `log_event` makes up to 5 insert attempts with a
1-second `time.sleep` after each lock failure; a failure that does not
indicate a lock propagates immediately on whichever attempt it occurs
(in particular on the first); but when all 5 attempts find the database
locked the insert is abandoned SILENTLY — no exception propagates and
the event row is lost. -/
theorem C3_retry_policy (attempt : ℕ → DbOutcome) :
    ((∀ i, i < 5 → attempt i = DbOutcome.locked) →
        log_event attempt = ⟨false, none, List.replicate 5 1⟩)
    ∧ (∀ k, k < 5 → (∀ i, i < k → attempt i = DbOutcome.locked) →
        attempt k = DbOutcome.ok →
        log_event attempt = ⟨true, none, List.replicate k 1⟩)
    ∧ (∀ k m, k < 5 → (∀ i, i < k → attempt i = DbOutcome.locked) →
        attempt k = DbOutcome.err m →
        log_event attempt = ⟨false, some m, List.replicate k 1⟩) := by
  refine ⟨fun h => ?_, fun k hk h hok => ?_, fun k m hk h herr => ?_⟩
  · exact logEventLoop_all_locked attempt 5 0 (fun j hj => by simpa using h j hj)
  · exact logEventLoop_ok attempt k 5 0 hk (fun j hj => by simpa using h j hj)
      (by simpa using hok)
  · exact logEventLoop_err attempt m k 5 0 hk (fun j hj => by simpa using h j hj)
      (by simpa using herr)

/-- C3 witness: two lock failures then a successful insert — two
1-second sleeps, row inserted, nothing raised. -/
theorem C3_witness : log_event attemptSeq = ⟨true, none, List.replicate 2 1⟩ :=
  (C3_retry_policy attemptSeq).2.1 2 (by omega) (by decide) (by decide)

/-! ## C4: the upload phase -/

/-- C4 counterexample: `uRowNoCT` is a non-duplicate, non-directory
entry of batch "B", yet the uploader issues NO call for it: its NULL
`content_type` makes the SQL comparison `content_type != "directory"`
evaluate to NULL, so the query drops the row. -/
theorem C4_counterexample :
    uRowNoCT.is_duplicate = false
    ∧ uRowNoCT.content_type ≠ some "directory"
    ∧ uRowNoCT.batch = "B"
    ∧ (upload_to_azure "/dest" "B" [uRowNoCT] (fun _ => none)).1 = [] := by decide

/-- C4 amended: the upload phase issues exactly one call per catalog
entry of the batch that is non-duplicate AND has a non-NULL
content_type different from `"directory"` (entries whose MIME guess
failed are silently skipped by SQL NULL semantics); each call targets
blob path `<batch>/<filepath>` from local path `<dest>/<filepath>` with
overwrite enabled; duplicate and directory rows are never selected; and
the concrete 3-file + 1-duplicate + 1-directory batch yields exactly 3
calls. -/
theorem C4_upload_scope (dd b : String) (rows : List Row) (failMsg : Row → Option String) :
    (upload_to_azure dd b rows failMsg).1
      = (rows.filter (uploadPred b)).map
          (fun r => ⟨dd ++ "/" ++ r.filepath, b ++ "/" ++ r.filepath, true⟩)
    ∧ (∀ r, uploadPred b r = true
        ↔ r.batch = b ∧ r.is_duplicate = false
          ∧ ∃ s, r.content_type = some s ∧ s ≠ "directory")
    ∧ (∀ r ∈ rows, r.is_duplicate = true ∨ r.content_type = some "directory" →
        uploadPred b r = false)
    ∧ (upload_to_azure "/dest" "B" uploadRows (fun _ => none)).1.length = 3 := by
  refine ⟨rfl, ?_, ?_, by decide⟩
  · intro r
    cases hct : r.content_type with
    | none => simp [uploadPred, hct]
    | some s => simp [uploadPred, hct, Bool.and_eq_true, beq_iff_eq, and_assoc]
  · intro r _ h
    rcases h with hd | hct
    · simp [uploadPred, hd]
    · cases hdup : r.is_duplicate
      · simp [uploadPred, hct, hdup]
      · simp [uploadPred, hdup]

/-- C4 witness: the concrete batch of three uploadable files, one
duplicate and one directory yields exactly three upload calls. -/
theorem C4_witness : (upload_to_azure "/dest" "B" uploadRows (fun _ => none)).1.length = 3 :=
  (C4_upload_scope "/dest" "B" uploadRows (fun _ => none)).2.2.2

/-! ## C5: `format_size` -/

lemma qdiv_lt (b k : ℕ) : (b : ℚ) / 1024 ^ k < 1024 ↔ b < 1024 ^ (k + 1) := by
  rw [div_lt_iff₀ (by positivity : (0 : ℚ) < 1024 ^ k)]
  have hcast : (1024 : ℚ) * 1024 ^ k = ((1024 ^ (k + 1) : ℕ) : ℚ) := by
    push_cast
    ring
  rw [hcast]
  exact_mod_cast Iff.rfl

lemma qdiv_le (b k : ℕ) : (1024 : ℚ) ≤ (b : ℚ) / 1024 ^ k ↔ 1024 ^ (k + 1) ≤ b := by
  rw [le_div_iff₀ (by positivity : (0 : ℚ) < 1024 ^ k)]
  have hcast : (1024 : ℚ) * 1024 ^ k = ((1024 ^ (k + 1) : ℕ) : ℚ) := by
    push_cast
    ring
  rw [hcast]
  exact_mod_cast Iff.rfl

/-- C5 counterexample: `1024^5` is a byte count above `1024^4`, yet
`format_size` returns NO string for it — the Python loop exhausts the
unit list and falls off the end, returning `None` instead of a TB
rendering. -/
theorem C5_counterexample :
    format_size (1024 ^ 5) = none ∧ 1024 ^ 4 ≤ 1024 ^ 5 := by decide

/-- C5 amended: for every byte count `b < 1024^5`, `format_size`
renders the exact magnitude `b / 1024^k` (a value in `[0, 1024)`) with
two decimal places, choosing the smallest unit of the B/KB/MB/GB/TB
ladder such that `b / 1024^k < 1024`; every `b` with
`1024^4 ≤ b < 1024^5` is expressed in TB; the concrete values 500,
1536, 1073741824 format as claimed; but for `b ≥ 1024^5` the function
returns no string at all (Python `None`). -/
theorem C5_format_size (b : ℕ) :
    (b < 1024 ^ 5 → ∃ k : ℕ, k < 5
      ∧ format_size b = some (fmt2 b (1024 ^ k) ++ " " ++ unitName k)
      ∧ (b : ℚ) / 1024 ^ k < 1024
      ∧ (∀ j, j < k → (1024 : ℚ) ≤ (b : ℚ) / 1024 ^ j))
    ∧ (1024 ^ 5 ≤ b → format_size b = none)
    ∧ (1024 ^ 4 ≤ b → b < 1024 ^ 5 →
        format_size b = some (fmt2 b (1024 ^ 4) ++ " TB"))
    ∧ format_size 500 = some "500.00 B"
    ∧ format_size 1536 = some "1.50 KB"
    ∧ format_size 1073741824 = some "1.00 GB" := by
  refine ⟨?_, ?_, ?_, by decide, by decide, by decide⟩
  · intro hb
    have hb' : b < 1125899906842624 := by norm_num at hb; exact hb
    rcases lt_or_ge b 1024 with h0 | h0
    · refine ⟨0, by omega, ?_, (qdiv_lt b 0).mpr (by norm_num; omega), ?_⟩
      · simp [format_size, formatLoop, h0, unitName]
      · intro j hj
        exact absurd hj (Nat.not_lt_zero j)
    rcases lt_or_ge b 1048576 with h1 | h1
    · refine ⟨1, by omega, ?_, (qdiv_lt b 1).mpr (by norm_num; omega), ?_⟩
      · simp [format_size, formatLoop, Nat.not_lt.mpr h0, h1, unitName]
      · intro j hj
        interval_cases j
        exact (qdiv_le b 0).mpr (by norm_num; omega)
    rcases lt_or_ge b 1073741824 with h2 | h2
    · refine ⟨2, by omega, ?_, (qdiv_lt b 2).mpr (by norm_num; omega), ?_⟩
      · simp [format_size, formatLoop, Nat.not_lt.mpr h0, Nat.not_lt.mpr h1, h2, unitName]
      · intro j hj
        interval_cases j
        · exact (qdiv_le b 0).mpr (by norm_num; omega)
        · exact (qdiv_le b 1).mpr (by norm_num; omega)
    rcases lt_or_ge b 1099511627776 with h3 | h3
    · refine ⟨3, by omega, ?_, (qdiv_lt b 3).mpr (by norm_num; omega), ?_⟩
      · simp [format_size, formatLoop, Nat.not_lt.mpr h0, Nat.not_lt.mpr h1,
          Nat.not_lt.mpr h2, h3, unitName]
      · intro j hj
        interval_cases j
        · exact (qdiv_le b 0).mpr (by norm_num; omega)
        · exact (qdiv_le b 1).mpr (by norm_num; omega)
        · exact (qdiv_le b 2).mpr (by norm_num; omega)
    · refine ⟨4, by omega, ?_, (qdiv_lt b 4).mpr (by norm_num; omega), ?_⟩
      · simp [format_size, formatLoop, Nat.not_lt.mpr h0, Nat.not_lt.mpr h1,
          Nat.not_lt.mpr h2, Nat.not_lt.mpr h3, hb', unitName]
      · intro j hj
        interval_cases j
        · exact (qdiv_le b 0).mpr (by norm_num; omega)
        · exact (qdiv_le b 1).mpr (by norm_num; omega)
        · exact (qdiv_le b 2).mpr (by norm_num; omega)
        · exact (qdiv_le b 3).mpr (by norm_num; omega)
  · intro hb
    have hb' : 1125899906842624 ≤ b := by norm_num at hb; exact hb
    simp [format_size, formatLoop, show ¬ b < 1024 by omega, show ¬ b < 1048576 by omega,
      show ¬ b < 1073741824 by omega, show ¬ b < 1099511627776 by omega,
      show ¬ b < 1125899906842624 by omega]
  · intro h4 h5
    have h4' : 1099511627776 ≤ b := by norm_num at h4; exact h4
    have h5' : b < 1125899906842624 := by norm_num at h5; exact h5
    simp [format_size, formatLoop, show ¬ b < 1024 by omega, show ¬ b < 1048576 by omega,
      show ¬ b < 1073741824 by omega, show ¬ b < 1099511627776 by omega, h5']
    rw [String.append_assoc]
    rfl

/-- C5 witness: the TB clause at `b = 1024^4`. -/
theorem C5_witness :
    format_size (1024 ^ 4) = some (fmt2 (1024 ^ 4) (1024 ^ 4) ++ " TB") :=
  (C5_format_size (1024 ^ 4)).2.2.1 (le_refl _) (by norm_num)

/-! ## C1: dedup idempotence -/

/-- C1: archiving an unchanged tree a second time (same traversal, same
source stats) into the catalog produced by the first run appends, per
file, exactly one duplicate row (`is_duplicate = true`) whose
`original_path` is the first run's stored `filepath` for that file;
the second run performs zero compressor invocations and zero thumbnail
attempts; and every duplicate row's `original_path` resolves to an
earlier non-duplicate row of the same catalog. Hypotheses: the first
run starts from an empty catalog, every file compresses successfully,
and the dedup keys (filename, size, ctime, mtime) of the traversal are
pairwise distinct. -/
theorem C1_dedup_idempotence (items : List Item) (b1 b2 dd : String)
    (st1 st2 : ArchiveState)
    (h1 : st1 = compress_files_and_save_to_db b1 dd items emptyState)
    (h2 : st2 = compress_files_and_save_to_db b2 dd items st1)
    (hok : ∀ it ∈ items, itemOk it = true)
    (hkeys : (items.map ikey).Nodup) :
    st2.rows = st1.rows ++ items.map (row2 b2)
    ∧ (∀ f, Item.file f ∈ items →
        (row2 b2 (Item.file f)).is_duplicate = true
        ∧ (row2 b2 (Item.file f)).original_path = (row1 b1 (Item.file f)).filepath)
    ∧ st2.compressCalls = st1.compressCalls
    ∧ st2.thumbAttempts = st1.thumbAttempts
    ∧ (∀ (j : ℕ) (r : Row), st2.rows[j]? = some r → r.is_duplicate = true →
        ∃ (i : ℕ) (r' : Row), i < j ∧ st2.rows[i]? = some r' ∧ r'.is_duplicate = false
          ∧ r'.filepath = r.original_path) := by
  have hok' : ∀ f, Item.file f ∈ items → f.compressOk = true :=
    fun f hf => hok (Item.file f) hf
  have hfresh := fold_fresh b1 dd items emptyState
    (by intro r hr; cases hr) hkeys
  have hrows1 : st1.rows = items.map (row1 b1) := by
    rw [h1, hfresh.1]
    simp [emptyState, filterMap_row1_eq_map b1 items hok']
  have hst1 : st1 = ⟨items.map (row1 b1) ++ [], st1.events, st1.compressCalls,
      st1.thumbAttempts⟩ := by
    rw [show st1 = ⟨st1.rows, st1.events, st1.compressCalls, st1.thumbAttempts⟩ from rfl]
    rw [hrows1]
    simp
  have hst2 : st2 = ⟨items.map (row1 b1) ++ ([] ++ items.map (row2 b2)), st1.events,
      st1.compressCalls, st1.thumbAttempts⟩ := by
    rw [h2, hst1]
    exact fold_dup b1 b2 dd items hkeys items [] st1.events st1.compressCalls
      st1.thumbAttempts (fun it h => h)
  have hrows2 : st2.rows = items.map (row1 b1) ++ items.map (row2 b2) := by
    rw [hst2]
    simp
  refine ⟨?_, fun f _ => ⟨rfl, rfl⟩, ?_, ?_, ?_⟩
  · rw [hrows2, hrows1]
  · rw [hst2]
  · rw [hst2]
  · intro j r hj hdup
    rw [hrows2] at hj
    by_cases hlt : j < items.length
    · rw [List.getElem?_append_left (by simpa using hlt), List.getElem?_map] at hj
      cases hji : items[j]? with
      | none => rw [hji] at hj; exact absurd hj (by simp)
      | some it =>
        rw [hji] at hj
        simp only [Option.map_some'] at hj
        have : r.is_duplicate = false := by
          rw [← Option.some_inj.mp hj]
          exact row1_not_dup b1 it
        rw [this] at hdup
        cases hdup
    · push_neg at hlt
      rw [List.getElem?_append_right (by simpa using hlt), List.length_map,
        List.getElem?_map] at hj
      cases hji : items[j - items.length]? with
      | none => rw [hji] at hj; exact absurd hj (by simp)
      | some it =>
        rw [hji] at hj
        simp only [Option.map_some'] at hj
        have hr : r = row2 b2 it := (Option.some_inj.mp hj).symm
        have hi_lt : j - items.length < items.length := (List.getElem?_eq_some.mp hji).1
        cases it with
        | dir d =>
          rw [hr] at hdup
          cases hdup
        | file f =>
          refine ⟨j - items.length, row1 b1 (Item.file f), by omega, ?_, ?_, ?_⟩
          · rw [hrows2, List.getElem?_append_left (by simpa using hi_lt),
              List.getElem?_map, hji]
            rfl
          · exact row1_not_dup b1 _
          · rw [hr]
            rfl

/-- C1 witness: the three-item fixture traversal archived twice. -/
theorem C1_witness :
    (compress_files_and_save_to_db "B2" "/dest" itemsW
        (compress_files_and_save_to_db "B1" "/dest" itemsW emptyState)).rows
      = (compress_files_and_save_to_db "B1" "/dest" itemsW emptyState).rows
          ++ itemsW.map (row2 "B2") :=
  (C1_dedup_idempotence itemsW "B1" "B2" "/dest" _ _ rfl rfl (by decide) (by decide)).1

/-! ## C7: per-file error containment -/

lemma filtermap_map_sublist {α β γ : Type _} (g : α → Option β) (h : β → γ) (k : α → γ)
    (H : ∀ a b, g a = some b → h b = k a) :
    ∀ l : List α, ((l.filterMap g).map h).Sublist (l.map k)
  | [] => by simp
  | a :: l => by
    cases hga : g a with
    | none =>
      simp only [List.filterMap_cons, hga, List.map_cons]
      exact (filtermap_map_sublist g h k H l).cons _
    | some b =>
      simp only [List.filterMap_cons, hga, List.map_cons, H a b hga]
      exact (filtermap_map_sublist g h k H l).cons₂ _

lemma filtermap_map_sublist2 {α β γ : Type _} (g : α → Option β) (h : β → γ)
    (g' : α → Option γ) (H : ∀ a b, g a = some b → g' a = some (h b)) :
    ∀ l : List α, ((l.filterMap g).map h).Sublist (l.filterMap g')
  | [] => by simp
  | a :: l => by
    cases hga : g a with
    | none =>
      cases hg' : g' a with
      | none =>
        simp only [List.filterMap_cons, hga, hg']
        exact filtermap_map_sublist2 g h g' H l
      | some c =>
        simp only [List.filterMap_cons, hga, hg']
        exact (filtermap_map_sublist2 g h g' H l).cons _
    | some b =>
      simp only [List.filterMap_cons, hga, H a b hga]
      exact (filtermap_map_sublist2 g h g' H l).cons₂ _

lemma eventOf_path {it : Item} {e : Event} (h : eventOf it = some e) :
    pathOf it = some e.file_path := by
  cases it with
  | dir d => simp [eventOf] at h
  | file f =>
    simp only [eventOf] at h
    by_cases hc : f.compressOk
    · rw [if_pos hc] at h
      by_cases hm : isMedia f.contentType
      · rw [if_pos hm] at h
        cases ht : f.thumbOutcome with
        | success t => rw [ht] at h; cases h
        | failure m =>
          rw [ht] at h
          have he := Option.some_inj.mp h
          rw [← he]
          rfl
      · rw [if_neg hm] at h; cases h
    · rw [if_neg hc] at h
      have he := Option.some_inj.mp h
      rw [← he]
      rfl

lemma eventOf_compress_fail {f : FileItem} (h : f.compressOk = false) :
    eventOf (Item.file f) = some ⟨"Error processing file", f.srcPath, f.compressErrMsg⟩ := by
  simp [eventOf, h]

lemma eventOf_thumb_fail {f : FileItem} {m : String} (hok : f.compressOk = true)
    (hm : isMedia f.contentType = true) (ht : f.thumbOutcome = ThumbOutcome.failure m) :
    eventOf (Item.file f) = some ⟨"Error generating thumbnail", f.srcPath, m⟩ := by
  simp [eventOf, hok, hm, ht]

lemma row1?_ok (b : String) {f : FileItem} (h : f.compressOk = true) :
    row1? b (Item.file f) = some (freshRow b f) := by
  simp [row1?, h]

lemma row1?_fail (b : String) {f : FileItem} (h : f.compressOk = false) :
    row1? b (Item.file f) = none := by
  simp [row1?, h]

lemma rows_run1_nodup (b : String) (items : List Item)
    (hkeys : (items.map ikey).Nodup) : (items.filterMap (row1? b)).Nodup := by
  have hsub := filtermap_map_sublist (row1? b) rowKey ikey
    (fun a r h => rowKey_row1? b h) items
  exact (hsub.nodup hkeys).of_map _

lemma events_run1_nodup (items : List Item)
    (hpaths : (filePathsOf items).Nodup) : (items.filterMap eventOf).Nodup := by
  have hsub := filtermap_map_sublist2 eventOf Event.file_path pathOf
    (fun a e h => eventOf_path h) items
  exact (hsub.nodup hpaths).of_map _

/-- C7: with pairwise-distinct dedup keys and distinct source paths,
archiving from an empty catalog contains every per-file failure: a file
whose compression raises gets NO catalog row but exactly one
"Error processing file" event carrying its path and message, while
every other successfully compressed file still gets its row (the batch
is never aborted); and a thumbnail failure on a media file still yields
exactly one catalog row for it, with an absent thumbnail, plus exactly
one "Error generating thumbnail" event carrying that file's path. -/
theorem C7_error_containment (items : List Item) (b dd : String) (st : ArchiveState)
    (hst : st = compress_files_and_save_to_db b dd items emptyState)
    (hkeys : (items.map ikey).Nodup)
    (hpaths : (filePathsOf items).Nodup) :
    (∀ f, Item.file f ∈ items → f.compressOk = false →
        (∀ r ∈ st.rows, fileKeyMatch f r = false)
        ∧ st.events.count ⟨"Error processing file", f.srcPath, f.compressErrMsg⟩ = 1)
    ∧ (∀ f, Item.file f ∈ items → f.compressOk = true → freshRow b f ∈ st.rows)
    ∧ (∀ f m, Item.file f ∈ items → f.compressOk = true → isMedia f.contentType = true →
        f.thumbOutcome = ThumbOutcome.failure m →
        st.rows.count (freshRow b f) = 1
        ∧ (freshRow b f).thumbnail = none
        ∧ st.events.count ⟨"Error generating thumbnail", f.srcPath, m⟩ = 1) := by
  have hfresh := fold_fresh b dd items emptyState (by intro r hr; cases hr) hkeys
  have hrows : st.rows = items.filterMap (row1? b) := by
    rw [hst, hfresh.1]
    simp [emptyState]
  have hevents : st.events = items.filterMap eventOf := by
    rw [hst, hfresh.2]
    simp [emptyState]
  have hrownd : (items.filterMap (row1? b)).Nodup := rows_run1_nodup b items hkeys
  have hevnd : (items.filterMap eventOf).Nodup := events_run1_nodup items hpaths
  refine ⟨?_, ?_, ?_⟩
  · intro f hf hbad
    constructor
    · intro r hr
      cases hb : fileKeyMatch f r with
      | false => rfl
      | true =>
        exfalso
        rw [hrows] at hr
        obtain ⟨it, hit, hsome⟩ := List.mem_filterMap.mp hr
        have h1 : rowKey r = ikey it := rowKey_row1? b hsome
        have h2 : rowKey r = ikey (Item.file f) := (fileKeyMatch_iff f r).mp hb
        have h3 : it = Item.file f := List.inj_on_of_nodup_map hkeys hit hf (h1 ▸ h2)
        rw [h3, row1?_fail b hbad] at hsome
        cases hsome
    · rw [hevents]
      exact List.count_eq_one_of_mem hevnd
        (List.mem_filterMap.mpr ⟨Item.file f, hf, eventOf_compress_fail hbad⟩)
  · intro f hf hok
    rw [hrows]
    exact List.mem_filterMap.mpr ⟨Item.file f, hf, row1?_ok b hok⟩
  · intro f m hf hok hm ht
    refine ⟨?_, ?_, ?_⟩
    · rw [hrows]
      exact List.count_eq_one_of_mem hrownd
        (List.mem_filterMap.mpr ⟨Item.file f, hf, row1?_ok b hok⟩)
    · simp [freshRow, hm, thumbValue, ht]
    · rw [hevents]
      exact List.count_eq_one_of_mem hevnd
        (List.mem_filterMap.mpr ⟨Item.file f, hf, eventOf_thumb_fail hok hm ht⟩)

/-- C7 witness: in the fixture batch with one good image, one failing
compression and one corrupt image, the failing file logs exactly one
"Error processing file" event. -/
theorem C7_witness :
    (compress_files_and_save_to_db "B1" "/dest" itemsE emptyState).events.count
        ⟨"Error processing file", fileBad.srcPath, fileBad.compressErrMsg⟩ = 1 :=
  ((C7_error_containment itemsE "B1" "/dest" _ rfl (by decide) (by decide)).1 fileBad
    (by decide) (by decide)).2

/-! ## C8: the search CLI -/

lemma suffix_lower {s t : List Char} (h : s <:+ t) : lower s <:+ lower t := by
  obtain ⟨u, hu⟩ := h
  exact ⟨lower u, by rw [lower, lower, lower, ← List.map_append, hu]⟩

lemma suffix_lower_inv {w t : List Char} (h : w <:+ lower t) :
    ∃ s, s <:+ t ∧ lower s = w := by
  obtain ⟨u, hu⟩ := h
  obtain ⟨t₁, t₂, ht, _, h2⟩ := List.map_eq_append_iff.mp hu.symm
  exact ⟨t₂, ⟨t₁, ht.symm⟩, h2⟩

lemma likeMatch_trailing (v : List Char) (hv : noWild v) :
    ∀ t : List Char, likeMatch (v ++ ['%']) t = true ↔ lower v <+: lower t := by
  induction v with
  | nil =>
    intro t
    constructor
    · intro _
      exact List.nil_prefix
    · intro _
      show likeMatch ('%' :: []) t = true
      simp only [likeMatch, eq_self_iff_true, if_true, List.any_eq_true]
      refine ⟨[], (List.mem_tails [] t).mpr List.nil_suffix, ?_⟩
      rfl
  | cons c v' ih =>
    intro t
    have hc := hv c (List.mem_cons_self c v')
    have hv' : noWild v' := fun x hx => hv x (List.mem_cons_of_mem c hx)
    cases t with
    | nil =>
      simp only [List.cons_append, likeMatch, if_neg hc.1]
      constructor
      · intro h
        cases h
      · intro h
        exfalso
        have h' : (c.toLower :: lower v') <+: ([] : List Char) := by
          simp only [lower, List.map_cons, List.map_nil] at h
          exact h
        exact List.cons_ne_nil _ _ (List.prefix_nil.mp h')
    | cons d ts =>
      have hstep : likeMatch ((c :: v') ++ ['%']) (d :: ts)
          = ((c.toLower == d.toLower) && likeMatch (v' ++ ['%']) ts) := by
        simp only [List.cons_append, likeMatch, if_neg hc.1, if_neg hc.2]
        rfl
      rw [hstep, Bool.and_eq_true, beq_iff_eq]
      show _ ↔ (c.toLower :: lower v') <+: (d.toLower :: lower ts)
      rw [List.cons_prefix_cons]
      exact and_congr Iff.rfl (ih hv' ts)

lemma likeMatch_pattern_iff (v : List Char) (hv : noWild v) (t : List Char) :
    likeMatch ('%' :: (v ++ ['%'])) t = true ↔ lower v <:+: lower t := by
  have hunf : likeMatch ('%' :: (v ++ ['%'])) t
      = t.tails.any (likeMatch (v ++ ['%'])) := by
    simp only [likeMatch, eq_self_iff_true, if_true]
  rw [hunf, List.any_eq_true]
  constructor
  · rintro ⟨s, hs, hmatch⟩
    have hsuff : s <:+ t := (List.mem_tails s t).mp hs
    have hpre : lower v <+: lower s := (likeMatch_trailing v hv s).mp hmatch
    exact List.infix_iff_prefix_suffix.mpr ⟨lower s, hpre, suffix_lower hsuff⟩
  · intro hinf
    obtain ⟨w, hpre, hsuf⟩ := List.infix_iff_prefix_suffix.mp hinf
    obtain ⟨s, hs_suffix, hws⟩ := suffix_lower_inv hsuf
    refine ⟨s, (List.mem_tails s t).mpr hs_suffix, (likeMatch_trailing v hv s).mpr ?_⟩
    rw [hws]
    exact hpre

lemma list_all_congr {α : Type _} {p q : α → Bool} :
    ∀ l : List α, (∀ a ∈ l, p a = q a) → l.all p = l.all q
  | [], _ => rfl
  | a :: l, h => by
    simp only [List.all_cons, h a (List.mem_cons_self a l),
      list_all_congr l (fun x hx => h x (List.mem_cons_of_mem a hx))]

/-- C8 counterexample: SQLite's default `LIKE` is ASCII
case-insensitive, so a `filename` filter `"report"` RETURNS the row
named `"REPORT.PDF"` even though `"REPORT.PDF"` does not contain the
substring `"report"` — the result set is not exactly the
substring-containing rows. -/
theorem C8_counterexample :
    search_database [upperRow] [("filename", "report")] = some [searchProj upperRow]
    ∧ ¬ ("report".toList <:+: "REPORT.PDF".toList)
    ∧ upperRow.filename = "REPORT.PDF" := by
  exact ⟨by decide, by decide, rfl⟩

/-- C8 amended: for a non-empty criteria mapping whose values carry no
`LIKE` wildcards, `search_database` returns exactly the rows (projected
to id, filename, content_type, size, filepath, in the catalog's natural
insertion order — the result is a sublist of the projected table) for
which every named column's text contains the given substring UP TO
ASCII CASE (a NULL column never matches); the concrete
report/report_final instances behave as claimed; an empty criteria set
is an error (`none`: the generated SQL is malformed). -/
theorem C8_search_semantics :
    (∀ (rows : List DbRow) (criteria : List (String × String)),
        criteria ≠ [] →
        (∀ kv ∈ criteria, noWild kv.2.toList) →
        search_database rows criteria
          = some ((rows.filter (substrFilter criteria)).map searchProj))
    ∧ (∀ (rows : List DbRow) (criteria : List (String × String))
          (l : List (String × String × Option String × ℕ × String)),
        search_database rows criteria = some l → l.Sublist (rows.map searchProj))
    ∧ (∀ rows : List DbRow, search_database rows [] = none)
    ∧ search_database [reportRow, finalRow] [("filename", "report")]
        = some [searchProj reportRow, searchProj finalRow]
    ∧ search_database [reportRow, finalRow] [("filename", "final")]
        = some [searchProj finalRow] := by
  refine ⟨?_, ?_, fun rows => rfl, by decide, by decide⟩
  · intro rows criteria hne hnw
    unfold search_database
    rw [if_neg (by simpa [List.isEmpty_iff] using hne)]
    congr 1
    congr 1
    apply List.filter_congr
    intro r _
    unfold substrFilter
    apply list_all_congr
    intro kv hkv
    unfold critMatch
    cases hct : colText r kv.1 with
    | none => rfl
    | some s =>
      apply Bool.eq_iff_iff.mpr
      rw [decide_eq_true_eq]
      exact likeMatch_pattern_iff kv.2.toList (hnw kv hkv) s.toList
  · intro rows criteria l hl
    unfold search_database at hl
    by_cases h : criteria.isEmpty
    · rw [if_pos h] at hl
      cases hl
    · rw [if_neg h] at hl
      rw [← Option.some_inj.mp hl]
      exact (List.filter_sublist rows).map searchProj

/-- C8 witness: the amended characterization at the concrete
report/report_final table with the `"final"` filter. -/
theorem C8_witness :
    search_database [reportRow, finalRow] [("filename", "final")]
      = some (([reportRow, finalRow].filter
          (substrFilter [("filename", "final")])).map searchProj) :=
  (C8_search_semantics).1 [reportRow, finalRow] [("filename", "final")] (by decide) (by decide)

end ArchiveDir
